import Mathlib

/-!
Shallow embedding of the kubeapps dashboard's resource-reference layer:
  * `shared/ResourceRef` (`fromCRD`, the `ResourceRef` class and its
    URL/fetch helpers), and
  * `components/OperatorInstance/OperatorInstance.tsx` (the lifecycle
    callbacks `componentDidMount` / `componentDidUpdate` and the modal /
    delete handlers).

JavaScript objects that flow through lodash's `matches` are modelled by a
small JSON value type `JsonVal`; the external `Kube` module is modelled as
a record of its functions, so every theorem quantifies over all possible
implementations of it.
-/

/-- JSON-like values, standing in for the untyped JavaScript objects used as
lodash `matches` filters and as fetched Kubernetes resources. Strings are
atomic (their character-indexed pseudo-keys are not modelled). -/
inductive JsonVal where
  | str (s : String)
  | num (n : Int)
  | bool (b : Bool)
  | null
  | arr (elems : List JsonVal)
  | obj (fields : List (String × JsonVal))

/-- Own-property lookup: first field with the given key. -/
def lookupField (k : String) : List (String × JsonVal) → Option JsonVal
  | [] => none
  | (k2, v) :: rest => if k2 = k then some v else lookupField k rest

mutual

/-- lodash `baseIsEqual(pattern, target, PARTIAL | UNORDERED)`: partial deep
comparison. Primitive patterns compare by equality; an object pattern
requires every one of its fields to exist in the target and match
recursively; an array pattern requires each of its elements to match a
distinct element of the target array (first-match greedy, as lodash's
`seen` cache does). -/
def isMatchDeep : JsonVal → JsonVal → Bool
  | .str a, .str b => a == b
  | .num a, .num b => a == b
  | .bool a, .bool b => a == b
  | .null, .null => true
  | .arr ps, .arr ts => matchElems ps ts
  | .obj pf, .obj tf => matchFields pf tf
  | _, _ => false
termination_by p t => (sizeOf p, sizeOf t)

/-- Each pattern element must match a distinct target element, scanning the
target left to right and consuming the first match. -/
def matchElems : List JsonVal → List JsonVal → Bool
  | [], _ => true
  | p :: ps, ts =>
    match extractFirst p ts with
    | some rest => matchElems ps rest
    | none => false
termination_by ps ts => (sizeOf ps, sizeOf ts)

/-- Remove the first target element matching the pattern `p`; `none` when no
element matches. -/
def extractFirst (p : JsonVal) : List JsonVal → Option (List JsonVal)
  | [] => none
  | t :: ts =>
    if isMatchDeep p t then some ts
    else
      match extractFirst p ts with
      | some rest => some (t :: rest)
      | none => none
termination_by ts => (sizeOf p, sizeOf ts)

/-- Every pattern field must be present in the target's fields and its value
must match partially. -/
def matchFields : List (String × JsonVal) → List (String × JsonVal) → Bool
  | [], _ => true
  | (k, pv) :: pf, tf =>
    match lookupField k tf with
    | some tv => isMatchDeep pv tv && matchFields pf tf
    | none => false
termination_by pf tf => (sizeOf pf, sizeOf tf)

end

/-- The `matchData` keys of a JavaScript value: an object's own fields, an
array's index keys; primitives have none (strings treated as atomic). -/
def toPairs : JsonVal → List (String × JsonVal)
  | .obj fields => fields
  | .arr elems => (elems.zip (List.range elems.length)).map (fun p => (toString p.2, p.1))
  | _ => []

/-- lodash `matches(source)` applied to a value: `matches(undefined)` has an
empty `matchData` and accepts everything; otherwise every own field of the
source must be matched partially in the target (`baseIsMatch`). -/
def matchesPred (flt : Option JsonVal) (v : JsonVal) : Bool :=
  match flt with
  | none => true
  | some f => matchFields (toPairs f) (toPairs v)

/-- Modelled from the spec: the value fetched by `Kube.getResource` is "a
specific Kubernetes object" which, when it is a list (`IK8sList` in
`shared/types`, not under the provided sources), carries an `items` array;
the rest of the payload is opaque. `items = none` models an absent
(falsy) field; a present array is always truthy in JavaScript. -/
structure IK8sList where
  items : Option (List JsonVal)
  rest : JsonVal

/-- Modelled from the spec: the `Kube` module (`shared/Kube`) is not under
the provided sources, and the spec and claims use its functions
(`resourceAPIVersion`, `resourcePlural`, the REST/WebSocket URL builders
and `getResource`) only as opaque operations on resource coordinates. It
is therefore modelled as a record of those functions; theorems quantify
over every implementation. -/
structure KubeClient where
  resourceAPIVersion : String → String
  resourcePlural : String → String
  getResourceURL : String → String → String → String → String
  watchResourceURL : String → String → String → String → String
  getResource : String → String → String → String → IK8sList

/-- Model of `IResource.metadata` — only the fields the embedded code reads.
`namespace := none` models an absent field, `some ""` an empty string. -/
structure IMetadata where
  name : String
  «namespace» : Option String
deriving DecidableEq

/-- Model of `IResource` from `shared/types` — the fields the embedded code reads. -/
structure IResource where
  apiVersion : String
  kind : String
  metadata : IMetadata
deriving DecidableEq

/-- JavaScript string falsiness for an optional string: `undefined` and the
empty string are falsy. -/
def strFalsy : Option String → Bool
  | none => true
  | some s => s.isEmpty

/-- JavaScript `a || b` on optional strings. -/
def jsOrStr (a b : Option String) : Option String :=
  if strFalsy a then b else a

/-- The `ResourceRef` class: a reference to a namespaced Kubernetes API
object. `kind` is the `ResourceKind` string; `filter` is the optional
`defaultFilter` ("any" in the source, here a `JsonVal`). -/
structure ResourceRef where
  apiVersion : String
  kind : String
  name : String
  «namespace» : String
  filter : Option JsonVal

/-- The `ResourceRef` constructor: takes the namespace from the resource,
falling back to `defaultNamespace`; throws (modelled as `.error`) when the
result is still falsy. -/
def mkResourceRef (r : IResource) (defaultNamespace : Option String)
    (defaultFilter : Option JsonVal) : Except String ResourceRef :=
  let «namespace» := jsOrStr r.metadata.«namespace» defaultNamespace
  if strFalsy «namespace» then
    .error ("Namespace missing for resource " ++ r.metadata.name ++
      ", define a default namespace")
  else
    .ok { apiVersion := r.apiVersion, kind := r.kind, name := r.metadata.name,
          «namespace» := «namespace».getD "", filter := defaultFilter }

/-- Model of `IClusterServiceVersionCRDResource` from `shared/types`: a CRD
owned-resource descriptor, declaring a kind and a name. -/
structure IClusterServiceVersionCRDResource where
  kind : String
  name : String
deriving DecidableEq

/-- The `fromCRD` helper: builds an `IResource` skeleton (no `metadata.namespace`) from
a CRD owned-resource descriptor and wraps it in a `ResourceRef` with the
given default namespace and an owner-reference filter. -/
def fromCRD (kube : KubeClient) (r : IClusterServiceVersionCRDResource)
    («namespace» : String) (ownerReference : JsonVal) : Except String ResourceRef :=
  let resource : IResource :=
    { apiVersion := kube.resourceAPIVersion r.kind, kind := r.kind,
      metadata := { name := r.name, «namespace» := none } }
  mkResourceRef resource (some «namespace»)
    (some (.obj [("metadata", .obj [("ownerReferences", .arr [ownerReference])])]))

/-- Model of `ResourceRef.getResourceURL`. -/
def ResourceRef.getResourceURL (kube : KubeClient) (ref : ResourceRef) : String :=
  kube.getResourceURL ref.apiVersion (kube.resourcePlural ref.kind) ref.«namespace» ref.name

/-- Model of `ResourceRef.watchResourceURL`. -/
def ResourceRef.watchResourceURL (kube : KubeClient) (ref : ResourceRef) : String :=
  kube.watchResourceURL ref.apiVersion (kube.resourcePlural ref.kind) ref.«namespace» ref.name

/-- Model of `ResourceRef.getResource`: fetch, then — when the result has a truthy
`items` field — replace `items` with the lodash-filtered sublist and return
the (mutated) list; otherwise return the fetched value unchanged. -/
def ResourceRef.getResource (kube : KubeClient) (ref : ResourceRef) : IK8sList :=
  let resource := kube.getResource ref.apiVersion (kube.resourcePlural ref.kind)
    ref.«namespace» ref.name
  match resource.items with
  | some elems =>
    { resource with items := some (elems.filter (fun v => matchesPred ref.filter v)) }
  | none => resource

/-- Model of `IClusterServiceVersionCRD` from `shared/types`: an owned CRD entry of a
CSV — its full name, the kind it defines, and the descriptors of the
resources its instances own. -/
structure IClusterServiceVersionCRD where
  name : String
  kind : String
  resources : List IClusterServiceVersionCRDResource
deriving DecidableEq

/-- The `spec.customresourcedefinitions` field of a CSV. -/
structure ICSVCustomResourceDefinitions where
  owned : List IClusterServiceVersionCRD
deriving DecidableEq

/-- The part of a CSV's `spec` the embedded code reads. -/
structure ICSVSpec where
  customresourcedefinitions : ICSVCustomResourceDefinitions
deriving DecidableEq

/-- Model of `IClusterServiceVersion` from `shared/types` — the fields the embedded
code reads. -/
structure IClusterServiceVersion where
  spec : ICSVSpec
deriving DecidableEq

/-- Model of `IPartialAppViewState` (from `AppView`): the per-kind buckets of
resource references, in the field order of the literal built in
`OperatorInstance.componentDidUpdate`. -/
structure IPartialAppViewState where
  ingressRefs : List ResourceRef
  deployRefs : List ResourceRef
  statefulSetRefs : List ResourceRef
  daemonSetRefs : List ResourceRef
  otherResources : List ResourceRef
  serviceRefs : List ResourceRef
  secretRefs : List ResourceRef

/-- The empty bucket state the `switch` loop starts from. -/
def emptyAppViewState : IPartialAppViewState :=
  { ingressRefs := [], deployRefs := [], statefulSetRefs := [], daemonSetRefs := [],
    otherResources := [], serviceRefs := [], secretRefs := [] }

/-- The owner reference built in `componentDidUpdate`:
`{ name: resource.metadata.name, kind: resource.kind }`. -/
def ownerRefOf (resource : IResource) : JsonVal :=
  .obj [("name", .str resource.metadata.name), ("kind", .str resource.kind)]

/-- The `switch (r.kind)` of `componentDidUpdate`: append a reference to the
bucket selected by the descriptor's kind (JavaScript `push` appends). -/
def pushRef (acc : IPartialAppViewState) (kind : String) (ref : ResourceRef) :
    IPartialAppViewState :=
  if kind = "Deployment" then { acc with deployRefs := acc.deployRefs ++ [ref] }
  else if kind = "StatefulSet" then { acc with statefulSetRefs := acc.statefulSetRefs ++ [ref] }
  else if kind = "DaemonSet" then { acc with daemonSetRefs := acc.daemonSetRefs ++ [ref] }
  else if kind = "Service" then { acc with serviceRefs := acc.serviceRefs ++ [ref] }
  else if kind = "Ingress" then { acc with ingressRefs := acc.ingressRefs ++ [ref] }
  else if kind = "Secret" then { acc with secretRefs := acc.secretRefs ++ [ref] }
  else { acc with otherResources := acc.otherResources ++ [ref] }

/-- The `crd.resources.forEach` loop of `componentDidUpdate`: build a
reference from each descriptor in order and push it to its bucket. A throw
in the `ResourceRef` constructor propagates out of the loop. -/
def buildLoop (kube : KubeClient) («namespace» : String) (ownerRef : JsonVal) :
    List IClusterServiceVersionCRDResource → IPartialAppViewState →
    Except String IPartialAppViewState
  | [], acc => .ok acc
  | r :: rest, acc =>
    match fromCRD kube r «namespace» ownerRef with
    | .error e => .error e
    | .ok ref => buildLoop kube «namespace» ownerRef rest (pushRef acc r.kind ref)

/-- The whole resource-reference rebuild of `componentDidUpdate` for a given
crd and resource: the `result` literal, the owner reference, and the
`forEach` over `crd.resources`. -/
def buildResourceRefs (kube : KubeClient) (crd : IClusterServiceVersionCRD)
    («namespace» : String) (resource : IResource) : Except String IPartialAppViewState :=
  buildLoop kube «namespace» (ownerRefOf resource) crd.resources emptyAppViewState

/-- Model of `IOperatorInstanceProps` — the data props the embedded callbacks read.
The function props (`getResource`, `deleteResource`, `push`) are modelled
as emitted `Effect`s, and the purely presentational props (`isFetching`,
`error`) are not part of the embedded logic. -/
structure IOperatorInstanceProps where
  «namespace» : String
  csvName : String
  crdName : String
  instanceName : String
  resource : Option IResource
  csv : Option IClusterServiceVersion
deriving DecidableEq

/-- Model of `IOperatorInstanceState`. -/
structure IOperatorInstanceState where
  modalIsOpen : Bool
  crd : Option IClusterServiceVersionCRD
  resources : Option IPartialAppViewState

/-- Calls the component makes to its function props. -/
inductive Effect where
  | getResource («namespace» csvName crdName resourceName : String)
  | deleteResource («namespace» : String) (crdName : String) (resource : IResource)
  | push (location : String)
deriving DecidableEq

/-- Model of `componentDidMount`: fetch the resource. -/
def componentDidMount (props : IOperatorInstanceProps) : List Effect :=
  [Effect.getResource props.«namespace» props.csvName props.crdName props.instanceName]

/-- The local `crd` variable of `componentDidUpdate`: starts as
`this.state.crd` and is reassigned — to the first owned CRD entry whose
kind equals the resource's kind, or to `undefined` when none matches —
exactly when both `csv` and `resource` are present. -/
def updatedCrd (props : IOperatorInstanceProps) (state : IOperatorInstanceState) :
    Option IClusterServiceVersionCRD :=
  match props.csv, props.resource with
  | some csv, some resource =>
    csv.spec.customresourcedefinitions.owned.find? (fun c => c.kind == resource.kind)
  | _, _ => state.crd

/-- Model of `componentDidUpdate(prevProps)`: on a namespace change, refetch and
return; otherwise, when the csv or resource prop changed, recompute the
matching owned CRD (when both are present) and rebuild the resource
references (when the local crd and the resource are present). Returns the
new component state and the emitted effects; `.error` models an uncaught
throw from the `ResourceRef` constructor. -/
def componentDidUpdate (kube : KubeClient) (prevProps props : IOperatorInstanceProps)
    (state : IOperatorInstanceState) :
    Except String (IOperatorInstanceState × List Effect) :=
  if prevProps.«namespace» ≠ props.«namespace» then
    .ok (state,
      [Effect.getResource props.«namespace» props.csvName props.crdName props.instanceName])
  else if props.csv ≠ prevProps.csv ∨ props.resource ≠ prevProps.resource then
    let crd := updatedCrd props state
    let state1 := match props.csv, props.resource with
      | some _, some _ => { state with crd := crd }
      | _, _ => state
    match crd, props.resource with
    | some c, some resource =>
      match buildResourceRefs kube c props.«namespace» resource with
      | .error e => .error e
      | .ok result => .ok ({ state1 with resources := some result }, [])
    | _, _ => .ok (state1, [])
  else
    .ok (state, [])

/-- Model of `openModal`: `setState({ modalIsOpen: true })` merges into the state. -/
def openModal (state : IOperatorInstanceState) : IOperatorInstanceState :=
  { state with modalIsOpen := true }

/-- Model of `closeModal`: `setState({ modalIsOpen: false })`. -/
def closeModal (state : IOperatorInstanceState) : IOperatorInstanceState :=
  { state with modalIsOpen := false }

/-- JavaScript `s.split(".")[0]`: the prefix of `s` before its first dot,
the whole string when it has none. -/
def headOfSplitDot (s : String) : String :=
  String.mk (s.toList.takeWhile (fun c => c ≠ '.'))

/-- Model of `handleDeleteClick`, parameterised by the boolean the `deleteResource`
promise resolves to. The non-null assertions `crd!` / `resource!` crash
(`none`) when either is missing; otherwise the modal closes and the route
is pushed exactly when the deletion succeeded. -/
def handleDeleteClick (props : IOperatorInstanceProps) (state : IOperatorInstanceState)
    (deleted : Bool) : Option (IOperatorInstanceState × List Effect) :=
  match state.crd, props.resource with
  | some crd, some resource =>
    some (closeModal state,
      [Effect.deleteResource props.«namespace» (headOfSplitDot crd.name) resource] ++
        (if deleted then [Effect.push ("/apps/ns/" ++ props.«namespace»)] else []))
  | _, _ => none

/-- The `ResourceRef` that `fromCRD` constructs when the namespace is
non-empty. -/
def fromCRDRef (kube : KubeClient) (r : IClusterServiceVersionCRDResource)
    («namespace» : String) (ownerReference : JsonVal) : ResourceRef :=
  { apiVersion := kube.resourceAPIVersion r.kind, kind := r.kind, name := r.name,
    «namespace» := «namespace»,
    filter := some (.obj [("metadata", .obj [("ownerReferences", .arr [ownerReference])])]) }

/-- A concrete `Kube` implementation used to instantiate witnesses. -/
def sampleKube : KubeClient :=
  { resourceAPIVersion := fun k => "apps/v1/" ++ k,
    resourcePlural := fun k => k ++ "s",
    getResourceURL := fun api plural ns name => api ++ "/" ++ plural ++ "/" ++ ns ++ "/" ++ name,
    watchResourceURL := fun api plural ns name =>
      "ws/" ++ api ++ "/" ++ plural ++ "/" ++ ns ++ "/" ++ name,
    getResource := fun _ _ _ _ => { items := none, rest := .null } }

lemma isEmpty_eq_decide (s : String) : s.isEmpty = decide (s = "") := by
  by_cases h : s = ""
  · simp [String.isEmpty_iff, h]
  · simp only [h, decide_False]
    rw [Bool.eq_false_iff]
    simpa [String.isEmpty_iff] using h

lemma fromCRD_eq_ok (kube : KubeClient) (r : IClusterServiceVersionCRDResource)
    (ns : String) (o : JsonVal) (h : ns ≠ "") :
    fromCRD kube r ns o = .ok (fromCRDRef kube r ns o) := by
  simp [fromCRD, mkResourceRef, jsOrStr, strFalsy, fromCRDRef, String.isEmpty_iff, h]

/-- C1: for every CRD owned-resource descriptor `r`, non-empty namespace
`ns` and owner reference `o`, `fromCRD(r, ns, o)` returns a `ResourceRef`
whose apiVersion is `Kube.resourceAPIVersion(r.kind)`, whose kind is
`r.kind`, whose name is `r.name`, whose namespace is `ns` (the built
resource carries no `metadata.namespace`, so the default is used), and
whose filter is `{ metadata: { ownerReferences: [o] } }`. -/
theorem fromCRD_builds_namespaced_ref (kube : KubeClient)
    (r : IClusterServiceVersionCRDResource) (ns : String) (o : JsonVal) (h : ns ≠ "") :
    fromCRD kube r ns o = .ok
      { apiVersion := kube.resourceAPIVersion r.kind, kind := r.kind, name := r.name,
        «namespace» := ns,
        filter := some (.obj [("metadata", .obj [("ownerReferences", .arr [o])])]) } :=
  fromCRD_eq_ok kube r ns o h

/-- C1 witness: `fromCRD` at a concrete descriptor, namespace and owner. -/
theorem fromCRD_builds_namespaced_ref_witness :
    fromCRD sampleKube ⟨"Deployment", "my-dep"⟩ "default" (.str "owner") = .ok
      { apiVersion := sampleKube.resourceAPIVersion "Deployment", kind := "Deployment",
        name := "my-dep", «namespace» := "default",
        filter := some (.obj
          [("metadata", .obj [("ownerReferences", .arr [.str "owner"])])]) } :=
  fromCRD_builds_namespaced_ref sampleKube ⟨"Deployment", "my-dep"⟩ "default" (.str "owner")
    (by decide)

/-- C3: the `ResourceRef` constructor throws exactly when both the
resource's `metadata.namespace` and the default namespace are absent or
empty; otherwise the constructed reference's namespace is the resource's
own namespace when that is non-empty and the default one otherwise, and it
is never empty. -/
theorem mkResourceRef_namespace_spec (r : IResource) (d : Option String)
    (f : Option JsonVal) :
    match mkResourceRef r d f with
    | .error _ => strFalsy r.metadata.«namespace» = true ∧ strFalsy d = true
    | .ok ref =>
      ((strFalsy r.metadata.«namespace» = false ∧
          r.metadata.«namespace» = some ref.«namespace») ∨
        (strFalsy r.metadata.«namespace» = true ∧ d = some ref.«namespace»)) ∧
      ref.«namespace» ≠ "" := by
  rcases r with ⟨apiVersion, kind, name, nsOpt⟩
  rcases nsOpt with _ | s <;> rcases d with _ | t
  · simp [mkResourceRef, jsOrStr, strFalsy]
  · by_cases ht : t = "" <;>
      simp [mkResourceRef, jsOrStr, strFalsy, isEmpty_eq_decide, ht]
  · by_cases hs : s = "" <;>
      simp [mkResourceRef, jsOrStr, strFalsy, isEmpty_eq_decide, hs]
  · by_cases hs : s = "" <;> by_cases ht : t = "" <;>
      simp [mkResourceRef, jsOrStr, strFalsy, isEmpty_eq_decide, hs, ht]

/-- C4: `getResourceURL` and `watchResourceURL` are the respective `Kube`
URL builders applied to the same four coordinates — apiVersion, pluralised
kind, namespace and name — of the reference. -/
theorem resourceRef_urls_same_coordinates (kube : KubeClient) (ref : ResourceRef) :
    ResourceRef.getResourceURL kube ref =
      kube.getResourceURL ref.apiVersion (kube.resourcePlural ref.kind)
        ref.«namespace» ref.name ∧
    ResourceRef.watchResourceURL kube ref =
      kube.watchResourceURL ref.apiVersion (kube.resourcePlural ref.kind)
        ref.«namespace» ref.name :=
  ⟨rfl, rfl⟩

/-- C5: `getResource` fetches via `Kube.getResource` at the reference's
coordinates; when the fetched value has a (truthy) `items` field the value
is returned with `items` replaced by the lodash-filtered sublist —
containing exactly the elements matching the reference's filter — and
otherwise the fetched value is returned unchanged. -/
theorem getResource_filters_items (kube : KubeClient) (ref : ResourceRef) :
    (ResourceRef.getResource kube ref =
      match (kube.getResource ref.apiVersion (kube.resourcePlural ref.kind)
          ref.«namespace» ref.name).items with
      | some elems =>
        { kube.getResource ref.apiVersion (kube.resourcePlural ref.kind)
            ref.«namespace» ref.name with
          items := some (elems.filter (fun v => matchesPred ref.filter v)) }
      | none =>
        kube.getResource ref.apiVersion (kube.resourcePlural ref.kind)
          ref.«namespace» ref.name) ∧
    ∀ (elems : List JsonVal) (v : JsonVal),
      v ∈ elems.filter (fun u => matchesPred ref.filter u) ↔
        v ∈ elems ∧ matchesPred ref.filter v = true := by
  refine ⟨rfl, ?_⟩
  intro elems v
  exact List.mem_filter

/-- C10: a reference constructed without a `defaultFilter` has `filter`
undefined; `matches(undefined)` accepts every element, so `getResource`
returns the fetched value unchanged — filtering with an undefined filter
is the identity on `items`. -/
theorem getResource_without_filter_is_identity (kube : KubeClient) (r : IResource)
    (d : Option String) (ref : ResourceRef) (h : mkResourceRef r d none = .ok ref) :
    ResourceRef.getResource kube ref =
      kube.getResource ref.apiVersion (kube.resourcePlural ref.kind)
        ref.«namespace» ref.name ∧
    ∀ v, matchesPred ref.filter v = true := by
  have hfilter : ref.filter = none := by
    unfold mkResourceRef at h
    by_cases hc : strFalsy (jsOrStr r.metadata.«namespace» d) = true
    · simp [hc] at h
    · simp [hc] at h
      rw [← h]
  constructor
  · unfold ResourceRef.getResource
    cases hres : (kube.getResource ref.apiVersion (kube.resourcePlural ref.kind)
        ref.«namespace» ref.name).items with
    | none => simp [hres]
    | some elems =>
      simp only [hres, hfilter, matchesPred, List.filter_true]
      cases hfetch : kube.getResource ref.apiVersion (kube.resourcePlural ref.kind)
          ref.«namespace» ref.name with
      | mk items rest => rw [hfetch] at hres; simp_all
  · intro v
    rw [hfilter]
    rfl

/-- C10 witness: a concrete filterless reference fetches unchanged. -/
theorem getResource_without_filter_is_identity_witness :
    ResourceRef.getResource sampleKube
        ⟨"v1", "Secret", "s1", "default", none⟩ =
      sampleKube.getResource "v1" (sampleKube.resourcePlural "Secret") "default" "s1" ∧
    ∀ v, matchesPred none v = true :=
  getResource_without_filter_is_identity sampleKube
    ⟨"v1", "Secret", ⟨"s1", some "default"⟩⟩ none
    ⟨"v1", "Secret", "s1", "default", none⟩ (by rfl)

/-- The six kinds given a dedicated bucket by the `switch` in
`componentDidUpdate`; anything else falls to `otherResources`. -/
def isBucketKind (k : String) : Bool :=
  k == "Deployment" || k == "StatefulSet" || k == "DaemonSet" ||
  k == "Service" || k == "Ingress" || k == "Secret"

lemma buildLoop_ok (kube : KubeClient) (ns : String) (o : JsonVal) (h : ns ≠ "")
    (rs : List IClusterServiceVersionCRDResource) :
    ∀ acc : IPartialAppViewState,
    buildLoop kube ns o rs acc = .ok
      { ingressRefs := acc.ingressRefs ++
          (rs.filter (fun r => r.kind == "Ingress")).map (fun r => fromCRDRef kube r ns o),
        deployRefs := acc.deployRefs ++
          (rs.filter (fun r => r.kind == "Deployment")).map (fun r => fromCRDRef kube r ns o),
        statefulSetRefs := acc.statefulSetRefs ++
          (rs.filter (fun r => r.kind == "StatefulSet")).map (fun r => fromCRDRef kube r ns o),
        daemonSetRefs := acc.daemonSetRefs ++
          (rs.filter (fun r => r.kind == "DaemonSet")).map (fun r => fromCRDRef kube r ns o),
        otherResources := acc.otherResources ++
          (rs.filter (fun r => !isBucketKind r.kind)).map (fun r => fromCRDRef kube r ns o),
        serviceRefs := acc.serviceRefs ++
          (rs.filter (fun r => r.kind == "Service")).map (fun r => fromCRDRef kube r ns o),
        secretRefs := acc.secretRefs ++
          (rs.filter (fun r => r.kind == "Secret")).map (fun r => fromCRDRef kube r ns o) } := by
  induction rs with
  | nil => intro acc; simp [buildLoop]
  | cons r rest ih =>
    intro acc
    rw [buildLoop, fromCRD_eq_ok kube r ns o h]
    dsimp only []
    rw [ih (pushRef acc r.kind (fromCRDRef kube r ns o))]
    by_cases h1 : r.kind = "Deployment"
    · simp [pushRef, h1, isBucketKind, List.filter_cons, List.append_assoc]
    · by_cases h2 : r.kind = "StatefulSet"
      · simp [pushRef, h1, h2, isBucketKind, List.filter_cons, List.append_assoc]
      · by_cases h3 : r.kind = "DaemonSet"
        · simp [pushRef, h1, h2, h3, isBucketKind, List.filter_cons, List.append_assoc]
        · by_cases h4 : r.kind = "Service"
          · simp [pushRef, h1, h2, h3, h4, isBucketKind, List.filter_cons,
              List.append_assoc]
          · by_cases h5 : r.kind = "Ingress"
            · simp [pushRef, h1, h2, h3, h4, h5, isBucketKind, List.filter_cons,
                List.append_assoc]
            · by_cases h6 : r.kind = "Secret"
              · simp [pushRef, h1, h2, h3, h4, h5, h6, isBucketKind, List.filter_cons,
                  List.append_assoc]
              · simp [pushRef, h1, h2, h3, h4, h5, h6, isBucketKind, List.filter_cons,
                  List.append_assoc]

lemma buildResourceRefs_ok (kube : KubeClient) (crd : IClusterServiceVersionCRD)
    (ns : String) (res : IResource) (h : ns ≠ "") :
    buildResourceRefs kube crd ns res = .ok
      { ingressRefs := (crd.resources.filter (fun r => r.kind == "Ingress")).map
          (fun r => fromCRDRef kube r ns (ownerRefOf res)),
        deployRefs := (crd.resources.filter (fun r => r.kind == "Deployment")).map
          (fun r => fromCRDRef kube r ns (ownerRefOf res)),
        statefulSetRefs := (crd.resources.filter (fun r => r.kind == "StatefulSet")).map
          (fun r => fromCRDRef kube r ns (ownerRefOf res)),
        daemonSetRefs := (crd.resources.filter (fun r => r.kind == "DaemonSet")).map
          (fun r => fromCRDRef kube r ns (ownerRefOf res)),
        otherResources := (crd.resources.filter (fun r => !isBucketKind r.kind)).map
          (fun r => fromCRDRef kube r ns (ownerRefOf res)),
        serviceRefs := (crd.resources.filter (fun r => r.kind == "Service")).map
          (fun r => fromCRDRef kube r ns (ownerRefOf res)),
        secretRefs := (crd.resources.filter (fun r => r.kind == "Secret")).map
          (fun r => fromCRDRef kube r ns (ownerRefOf res)) } := by
  unfold buildResourceRefs
  rw [buildLoop_ok kube ns (ownerRefOf res) h crd.resources emptyAppViewState]
  simp [emptyAppViewState]

lemma bucket_counts (rs : List IClusterServiceVersionCRDResource) :
    (rs.filter (fun r => r.kind == "Ingress")).length +
      (rs.filter (fun r => r.kind == "Deployment")).length +
      (rs.filter (fun r => r.kind == "StatefulSet")).length +
      (rs.filter (fun r => r.kind == "DaemonSet")).length +
      (rs.filter (fun r => !isBucketKind r.kind)).length +
      (rs.filter (fun r => r.kind == "Service")).length +
      (rs.filter (fun r => r.kind == "Secret")).length = rs.length := by
  induction rs with
  | nil => simp
  | cons r rest ih =>
    by_cases h1 : r.kind = "Deployment"
    · have hb : isBucketKind "Deployment" = true := by simp [isBucketKind]
      simp [h1, hb, List.filter_cons]; omega
    · by_cases h2 : r.kind = "StatefulSet"
      · have hb : isBucketKind "StatefulSet" = true := by simp [isBucketKind]
        simp [h1, h2, hb, List.filter_cons]; omega
      · by_cases h3 : r.kind = "DaemonSet"
        · have hb : isBucketKind "DaemonSet" = true := by simp [isBucketKind]
          simp [h1, h2, h3, hb, List.filter_cons]; omega
        · by_cases h4 : r.kind = "Service"
          · have hb : isBucketKind "Service" = true := by simp [isBucketKind]
            simp [h1, h2, h3, h4, hb, List.filter_cons]; omega
          · by_cases h5 : r.kind = "Ingress"
            · have hb : isBucketKind "Ingress" = true := by simp [isBucketKind]
              simp [h1, h2, h3, h4, h5, hb, List.filter_cons]; omega
            · by_cases h6 : r.kind = "Secret"
              · have hb : isBucketKind "Secret" = true := by simp [isBucketKind]
                simp [h1, h2, h3, h4, h5, h6, hb, List.filter_cons]; omega
              · have hb : isBucketKind r.kind = false := by
                  simp [isBucketKind, h1, h2, h3, h4, h5, h6]
                simp [h1, h2, h3, h4, h5, h6, hb, List.filter_cons]; omega

/-- C2: when `componentDidUpdate` rebuilds the resource-reference state
(namespace unchanged, csv or resource prop changed, local crd and resource
present, namespace non-empty), every entry of `crd.resources` lands in
exactly one bucket selected by its kind, each as
`fromCRD(r, namespace, { name: resource.metadata.name, kind: resource.kind })`;
bucket order follows `crd.resources` and the bucket sizes add up to
`crd.resources.length`. -/
theorem componentDidUpdate_rebuild_buckets (kube : KubeClient)
    (prevProps props : IOperatorInstanceProps) (st : IOperatorInstanceState)
    (res : IResource) (crd : IClusterServiceVersionCRD)
    (hns : prevProps.«namespace» = props.«namespace»)
    (hch : props.csv ≠ prevProps.csv ∨ props.resource ≠ prevProps.resource)
    (hres : props.resource = some res)
    (hcrd : updatedCrd props st = some crd)
    (hne : props.«namespace» ≠ "") :
    ∃ B, componentDidUpdate kube prevProps props st =
        .ok ({ st with crd := some crd, resources := some B }, []) ∧
      B.ingressRefs = (crd.resources.filter (fun r => r.kind == "Ingress")).map
        (fun r => fromCRDRef kube r props.«namespace» (ownerRefOf res)) ∧
      B.deployRefs = (crd.resources.filter (fun r => r.kind == "Deployment")).map
        (fun r => fromCRDRef kube r props.«namespace» (ownerRefOf res)) ∧
      B.statefulSetRefs = (crd.resources.filter (fun r => r.kind == "StatefulSet")).map
        (fun r => fromCRDRef kube r props.«namespace» (ownerRefOf res)) ∧
      B.daemonSetRefs = (crd.resources.filter (fun r => r.kind == "DaemonSet")).map
        (fun r => fromCRDRef kube r props.«namespace» (ownerRefOf res)) ∧
      B.otherResources = (crd.resources.filter (fun r => !isBucketKind r.kind)).map
        (fun r => fromCRDRef kube r props.«namespace» (ownerRefOf res)) ∧
      B.serviceRefs = (crd.resources.filter (fun r => r.kind == "Service")).map
        (fun r => fromCRDRef kube r props.«namespace» (ownerRefOf res)) ∧
      B.secretRefs = (crd.resources.filter (fun r => r.kind == "Secret")).map
        (fun r => fromCRDRef kube r props.«namespace» (ownerRefOf res)) ∧
      B.ingressRefs.length + B.deployRefs.length + B.statefulSetRefs.length +
        B.daemonSetRefs.length + B.otherResources.length + B.serviceRefs.length +
        B.secretRefs.length = crd.resources.length := by
  have hbuild := buildResourceRefs_ok kube crd props.«namespace» res hne
  refine ⟨{ ingressRefs := (crd.resources.filter (fun r => r.kind == "Ingress")).map
                (fun r => fromCRDRef kube r props.«namespace» (ownerRefOf res)),
            deployRefs := (crd.resources.filter (fun r => r.kind == "Deployment")).map
                (fun r => fromCRDRef kube r props.«namespace» (ownerRefOf res)),
            statefulSetRefs :=
              (crd.resources.filter (fun r => r.kind == "StatefulSet")).map
                (fun r => fromCRDRef kube r props.«namespace» (ownerRefOf res)),
            daemonSetRefs := (crd.resources.filter (fun r => r.kind == "DaemonSet")).map
                (fun r => fromCRDRef kube r props.«namespace» (ownerRefOf res)),
            otherResources := (crd.resources.filter (fun r => !isBucketKind r.kind)).map
                (fun r => fromCRDRef kube r props.«namespace» (ownerRefOf res)),
            serviceRefs := (crd.resources.filter (fun r => r.kind == "Service")).map
                (fun r => fromCRDRef kube r props.«namespace» (ownerRefOf res)),
            secretRefs := (crd.resources.filter (fun r => r.kind == "Secret")).map
                (fun r => fromCRDRef kube r props.«namespace» (ownerRefOf res)) },
    ?_, rfl, rfl, rfl, rfl, rfl, rfl, rfl, ?_⟩
  · cases hcsv : props.csv with
    | some c =>
      simp [componentDidUpdate, hns, hch, hcsv, hres, hcrd, hbuild]
      intro h1 h2
      rcases hch with h | h
      · exact (h (hcsv.trans h1)).elim
      · exact (h (hres.trans h2)).elim
    | none =>
      obtain ⟨m, c0, r0⟩ := st
      have hcrd2 : c0 = some crd := by simpa [updatedCrd, hcsv] using hcrd
      subst hcrd2
      simp [componentDidUpdate, hns, hch, hcsv, hres, updatedCrd, hbuild]
      intro h1 h2
      rcases hch with h | h
      · exact (h (hcsv.trans h1)).elim
      · exact (h (hres.trans h2)).elim
  · simp only [List.length_map]
    exact bucket_counts crd.resources

/-- A concrete owned-CRD entry used to instantiate witnesses. -/
def sampleCRD : IClusterServiceVersionCRD :=
  { name := "foos.example.com", kind := "Foo",
    resources := [⟨"Deployment", "d1"⟩, ⟨"Service", "s1"⟩, ⟨"CronJob", "c1"⟩] }

/-- A concrete CSV owning `sampleCRD`. -/
def sampleCSV : IClusterServiceVersion :=
  { spec := { customresourcedefinitions := { owned := [sampleCRD] } } }

/-- A concrete custom-resource instance of kind `Foo`. -/
def sampleResource : IResource :=
  { apiVersion := "example.com/v1", kind := "Foo",
    metadata := { name := "inst1", «namespace» := none } }

/-- Concrete current props: csv and resource present. -/
def sampleProps : IOperatorInstanceProps :=
  { «namespace» := "ns1", csvName := "csv1", crdName := "crd1", instanceName := "inst1",
    resource := some sampleResource, csv := some sampleCSV }

/-- Concrete previous props: same namespace, no csv or resource yet. -/
def samplePrevProps : IOperatorInstanceProps :=
  { «namespace» := "ns1", csvName := "csv1", crdName := "crd1", instanceName := "inst1",
    resource := none, csv := none }

/-- Concrete initial component state. -/
def sampleState : IOperatorInstanceState :=
  { modalIsOpen := false, crd := none, resources := none }

/-- C2 witness: the rebuild at concrete props distributes the three owned
resources into the Deployment, Service and other buckets. -/
theorem componentDidUpdate_rebuild_buckets_witness :
    ∃ B, componentDidUpdate sampleKube samplePrevProps sampleProps sampleState =
        .ok ({ sampleState with crd := some sampleCRD, resources := some B }, []) ∧
      B.deployRefs =
        [fromCRDRef sampleKube ⟨"Deployment", "d1"⟩ "ns1" (ownerRefOf sampleResource)] ∧
      B.serviceRefs =
        [fromCRDRef sampleKube ⟨"Service", "s1"⟩ "ns1" (ownerRefOf sampleResource)] ∧
      B.otherResources =
        [fromCRDRef sampleKube ⟨"CronJob", "c1"⟩ "ns1" (ownerRefOf sampleResource)] ∧
      B.ingressRefs.length + B.deployRefs.length + B.statefulSetRefs.length +
        B.daemonSetRefs.length + B.otherResources.length + B.serviceRefs.length +
        B.secretRefs.length = 3 := by
  obtain ⟨B, h1, h2, h3, h4, h5, h6, h7, h8, h9⟩ :=
    componentDidUpdate_rebuild_buckets sampleKube samplePrevProps sampleProps sampleState
      sampleResource sampleCRD rfl (by decide) rfl (by decide) (by decide)
  refine ⟨B, h1, ?_, ?_, ?_, ?_⟩
  · rw [h3]; rfl
  · rw [h7]; rfl
  · rw [h6]; rfl
  · exact h9.trans rfl

/-- C8: when the csv or resource prop changes and both are present (and the
namespace did not change), `componentDidUpdate` sets the crd state to the
first owned CRD entry whose kind equals the resource's kind — `none` when
no owned CRD has that kind — and only a crd found this way is used to
build the resource references. -/
theorem componentDidUpdate_selects_owned_crd (kube : KubeClient)
    (prevProps props : IOperatorInstanceProps) (st : IOperatorInstanceState)
    (c : IClusterServiceVersion) (res : IResource)
    (hns : prevProps.«namespace» = props.«namespace»)
    (hch : props.csv ≠ prevProps.csv ∨ props.resource ≠ prevProps.resource)
    (hcsv : props.csv = some c) (hres : props.resource = some res) :
    componentDidUpdate kube prevProps props st =
      match c.spec.customresourcedefinitions.owned.find?
          (fun d => d.kind == res.kind) with
      | some crd =>
        match buildResourceRefs kube crd props.«namespace» res with
        | .error e => .error e
        | .ok result =>
          .ok ({ st with crd := some crd, resources := some result }, [])
      | none => .ok ({ st with crd := none }, []) := by
  have hupd : updatedCrd props st =
      c.spec.customresourcedefinitions.owned.find? (fun d => d.kind == res.kind) := by
    simp [updatedCrd, hcsv, hres]
  cases hfind : c.spec.customresourcedefinitions.owned.find?
      (fun d => d.kind == res.kind) with
  | some crd =>
    cases hb : buildResourceRefs kube crd props.«namespace» res with
    | error e =>
      simp [componentDidUpdate, hns, hch, hcsv, hres, hupd, hfind, hb]
      intro h1 h2
      rcases hch with h | h
      · exact (h (hcsv.trans h1)).elim
      · exact (h (hres.trans h2)).elim
    | ok result =>
      simp [componentDidUpdate, hns, hch, hcsv, hres, hupd, hfind, hb]
      intro h1 h2
      rcases hch with h | h
      · exact (h (hcsv.trans h1)).elim
      · exact (h (hres.trans h2)).elim
  | none =>
    simp [componentDidUpdate, hns, hch, hcsv, hres, hupd, hfind]
    intro h1 h2
    rcases hch with h | h
    · exact (h (hcsv.trans h1)).elim
    · exact (h (hres.trans h2)).elim

/-- C8 witness: concrete csv/resource change selecting the owned `Foo` CRD. -/
theorem componentDidUpdate_selects_owned_crd_witness :
    componentDidUpdate sampleKube samplePrevProps sampleProps sampleState =
      match sampleCSV.spec.customresourcedefinitions.owned.find?
          (fun d => d.kind == sampleResource.kind) with
      | some crd =>
        match buildResourceRefs sampleKube crd sampleProps.«namespace» sampleResource with
        | .error e => .error e
        | .ok result =>
          .ok ({ sampleState with crd := some crd, resources := some result }, [])
      | none => .ok ({ sampleState with crd := none }, []) :=
  componentDidUpdate_selects_owned_crd sampleKube samplePrevProps sampleProps sampleState
    sampleCSV sampleResource rfl (by decide) rfl rfl

/-- C7: on mount, the resource is fetched once via
`getResource(namespace, csvName, crdName, instanceName)`; on any update
whose namespace differs from the previous one, the same fetch is issued
and `componentDidUpdate` returns immediately, leaving the state (crd and
resource references) untouched and emitting nothing else. -/
theorem namespace_change_refetches (kube : KubeClient)
    (prevProps props : IOperatorInstanceProps) (st : IOperatorInstanceState)
    (h : prevProps.«namespace» ≠ props.«namespace») :
    componentDidMount props =
      [Effect.getResource props.«namespace» props.csvName props.crdName
        props.instanceName] ∧
    componentDidUpdate kube prevProps props st =
      .ok (st, [Effect.getResource props.«namespace» props.csvName props.crdName
        props.instanceName]) :=
  ⟨rfl, by unfold componentDidUpdate; rw [if_pos h]⟩

/-- C7 witness: mount and a namespace change at concrete props. -/
theorem namespace_change_refetches_witness :
    componentDidMount sampleProps =
      [Effect.getResource sampleProps.«namespace» sampleProps.csvName
        sampleProps.crdName sampleProps.instanceName] ∧
    componentDidUpdate sampleKube { samplePrevProps with «namespace» := "ns0" }
        sampleProps sampleState =
      .ok (sampleState, [Effect.getResource sampleProps.«namespace» sampleProps.csvName
        sampleProps.crdName sampleProps.instanceName]) :=
  namespace_change_refetches sampleKube { samplePrevProps with «namespace» := "ns0" }
    sampleProps sampleState (by decide)

/-- C6: a confirmed deletion calls `deleteResource` with the current
namespace, the CRD name's prefix before its first dot, and the current
resource; the route `/apps/ns/<namespace>` is pushed iff the deletion
resolved to true. -/
theorem handleDeleteClick_deletes_and_routes (props : IOperatorInstanceProps)
    (st : IOperatorInstanceState) (crd : IClusterServiceVersionCRD) (res : IResource)
    (deleted : Bool) (hcrd : st.crd = some crd) (hres : props.resource = some res) :
    handleDeleteClick props st deleted =
      some ({ st with modalIsOpen := false },
        [Effect.deleteResource props.«namespace» (headOfSplitDot crd.name) res] ++
          (if deleted then [Effect.push ("/apps/ns/" ++ props.«namespace»)] else [])) ∧
    (Effect.push ("/apps/ns/" ++ props.«namespace») ∈
        [Effect.deleteResource props.«namespace» (headOfSplitDot crd.name) res] ++
          (if deleted then [Effect.push ("/apps/ns/" ++ props.«namespace»)] else []) ↔
      deleted = true) := by
  constructor
  · simp [handleDeleteClick, hcrd, hres, closeModal]
  · cases deleted <;> simp

/-- C6 witness: deleting `foos.example.com` instances calls with prefix
`foos` and pushes the route on success. -/
theorem handleDeleteClick_deletes_and_routes_witness :
    handleDeleteClick sampleProps
        { modalIsOpen := true, crd := some sampleCRD, resources := none } true =
      some ({ modalIsOpen := false, crd := some sampleCRD, resources := none },
        [Effect.deleteResource sampleProps.«namespace» (headOfSplitDot sampleCRD.name)
            sampleResource] ++
          (if true then [Effect.push ("/apps/ns/" ++ sampleProps.«namespace»)]
            else [])) ∧
    (Effect.push ("/apps/ns/" ++ sampleProps.«namespace») ∈
        [Effect.deleteResource sampleProps.«namespace» (headOfSplitDot sampleCRD.name)
            sampleResource] ++
          (if true then [Effect.push ("/apps/ns/" ++ sampleProps.«namespace»)]
            else []) ↔
      true = true) :=
  handleDeleteClick_deletes_and_routes sampleProps
    ⟨true, some sampleCRD, none⟩ sampleCRD sampleResource true rfl rfl

/-- C9: `openModal` and `closeModal` only toggle `modalIsOpen`, leaving
`crd` and `resources` unchanged, and `handleDeleteClick` closes the modal
whatever boolean the deletion resolved to. -/
theorem modal_toggles_only_modal_flag (props : IOperatorInstanceProps)
    (st : IOperatorInstanceState) (deleted : Bool)
    (out : IOperatorInstanceState × List Effect)
    (h : handleDeleteClick props st deleted = some out) :
    (openModal st).modalIsOpen = true ∧ (openModal st).crd = st.crd ∧
    (openModal st).resources = st.resources ∧
    (closeModal st).modalIsOpen = false ∧ (closeModal st).crd = st.crd ∧
    (closeModal st).resources = st.resources ∧
    out.1.modalIsOpen = false := by
  refine ⟨rfl, rfl, rfl, rfl, rfl, rfl, ?_⟩
  unfold handleDeleteClick at h
  cases hc : st.crd with
  | none => rw [hc] at h; simp at h
  | some crd =>
    cases hr : props.resource with
    | none => rw [hc, hr] at h; simp at h
    | some res =>
      rw [hc, hr] at h
      have h2 := Option.some.inj h
      subst h2
      rfl

/-- A concrete component state with the modal open and a crd selected. -/
def sampleOpenState : IOperatorInstanceState :=
  { modalIsOpen := true, crd := some sampleCRD, resources := none }

/-- C9 witness: the modal handlers at a concrete state, with a failed
deletion still closing the modal. -/
theorem modal_toggles_only_modal_flag_witness :
    (openModal sampleOpenState).modalIsOpen = true ∧
    (openModal sampleOpenState).crd = sampleOpenState.crd ∧
    (openModal sampleOpenState).resources = sampleOpenState.resources ∧
    (closeModal sampleOpenState).modalIsOpen = false ∧
    (closeModal sampleOpenState).crd = sampleOpenState.crd ∧
    (closeModal sampleOpenState).resources = sampleOpenState.resources ∧
    ((closeModal sampleOpenState,
        [Effect.deleteResource "ns1" (headOfSplitDot sampleCRD.name) sampleResource]) :
      IOperatorInstanceState × List Effect).1.modalIsOpen = false :=
  modal_toggles_only_modal_flag sampleProps sampleOpenState false
    (closeModal sampleOpenState,
      [Effect.deleteResource "ns1" (headOfSplitDot sampleCRD.name) sampleResource])
    (by rfl)
